import Mathlib

/-!
Shallow embedding of the cron state reconciler of
`src/scripts/sync-cron-runs.ts` (function `syncCronRuns`, with its helpers
`mapStatus` and `msToIso`), together with the store operations it issues
against the `cron_jobs` and `cron_runs` tables.

The remote datastore is modelled as explicit state (`Store`): the upsert
keyed on `id`, the point query `select ... .eq('job_id',..).eq('started_at',..)
.single()`, and the insert.  Each of the three calls can fail; failures are
injected through a `Faults` plan keyed by job id, mirroring the fact that the
supabase client returns `{ data, error }` pairs rather than throwing.
Timestamps are epoch milliseconds (`Nat`); `new Date(ms).toISOString()` is
injective on that range and the script uses the rendered string only as an
opaque value compared for equality, so `msToIso` is modelled by the
millisecond value itself.  JavaScript truthiness of optional numbers and
strings (`x || y`, `!x`) is modelled explicitly (`0` and `""` are falsy).
-/

namespace CronSync

/-- Run status enum of the `cron_runs.status` column. -/
inductive RunStatus where
  | pending
  | running
  | ok
  | error
  | timeout
  deriving DecidableEq, Repr

/-- `mapStatus` of sync-cron-runs.ts (lines 86-94): map the Gateway status
string to the database enum; any other value, including an absent one,
maps to `pending`. -/
def mapStatus : Option String → RunStatus
  | some "ok" => RunStatus.ok
  | some "error" => RunStatus.error
  | some "running" => RunStatus.running
  | some "timeout" => RunStatus.timeout
  | _ => RunStatus.pending

/-- `msToIso` (lines 79-81) renders epoch milliseconds as an ISO-8601 string;
the rendering is injective and the script only ever compares or stores the
rendered value, so it is modelled by the millisecond value itself. -/
def msToIso (ms : Nat) : Nat := ms

/-- JavaScript truthiness of an optional number: `undefined` and `0` are
falsy (`!state.lastRunAtMs`, line 131). -/
def jsTruthyNat : Option Nat → Bool
  | none => false
  | some n => n != 0

/-- JavaScript `x || null` for an optional number (`state.lastDurationMs || null`). -/
def jsNumOrNull : Option Nat → Option Nat
  | none => none
  | some n => if n = 0 then none else some n

/-- JavaScript `x || null` for an optional string (`state.lastError || null`). -/
def jsStrOrNull : Option String → Option String
  | none => none
  | some s => if s = "" then none else some s

/-- JavaScript `x || d` for an optional string with a string default
(`job.schedule.tz || 'America/Sao_Paulo'`). -/
def jsStrOrDefault : Option String → String → String
  | none, d => d
  | some s, d => if s = "" then d else s

/-- Schedule block of a Gateway cron job. -/
structure Schedule where
  kind : String
  expr : Option String
  everyMs : Option Nat
  tz : Option String
  deriving DecidableEq, Repr

/-- Payload block of a Gateway cron job (opaque, copied verbatim). -/
structure Payload where
  kind : String
  message : Option String
  text : Option String
  deriving DecidableEq, Repr

/-- Delivery block of a Gateway cron job (opaque, copied verbatim). -/
structure Delivery where
  mode : String
  deriving DecidableEq, Repr

/-- State block of a Gateway cron job. -/
structure JobState where
  lastRunAtMs : Option Nat
  lastStatus : Option String
  lastDurationMs : Option Nat
  lastError : Option String
  consecutiveErrors : Option Nat
  deriving DecidableEq, Repr

/-- `GatewayCronJob` of sync-cron-runs.ts (lines 41-69). -/
structure GatewayCronJob where
  id : String
  name : String
  enabled : Bool
  schedule : Schedule
  sessionTarget : String
  payload : Payload
  delivery : Option Delivery
  state : JobState
  deriving DecidableEq, Repr

/-- A row of the `cron_jobs` table, as written by the upsert
(lines 159-175). -/
structure CronJobRow where
  id : String
  name : String
  enabled : Bool
  schedule_kind : String
  schedule_expr : String
  timezone : String
  session_target : String
  payload : Payload
  delivery : Option Delivery
  last_run_at : Option Nat
  last_status : RunStatus
  last_duration_ms : Option Nat
  last_error : Option String
  consecutive_errors : Nat
  updated_at : Nat
  deriving DecidableEq, Repr

/-- A row of the `cron_runs` table, as written by the insert
(lines 200-210). -/
structure CronRunRow where
  job_id : String
  started_at : Nat
  completed_at : Option Nat
  status : RunStatus
  duration_ms : Option Nat
  error_message : Option String
  result_summary : Option String
  deriving DecidableEq, Repr

/-- The two tables the reconciler touches. -/
structure Store where
  cron_jobs : List CronJobRow
  cron_runs : List CronRunRow
  deriving DecidableEq, Repr

/-- Injected outcomes for the three fallible store calls issued for one job:
the supabase client reports failures in the `error` field of its result
rather than throwing. -/
structure Faults where
  upsertErr : Bool
  selectErr : Bool
  insertErr : Bool
  deriving DecidableEq, Repr

/-- The counter record initialised at lines 121-126 and printed at the end. -/
structure SyncResults where
  jobsUpdated : Nat
  runsCreated : Nat
  skipped : Nat
  errors : Nat
  deriving DecidableEq, Repr

/-- Store plus the per-invocation counters: the full state threaded through
the job loop. -/
structure SyncState where
  store : Store
  results : SyncResults
  deriving DecidableEq, Repr

/-- Componentwise sum of two counter records. -/
def addResults (a b : SyncResults) : SyncResults :=
  ⟨a.jobsUpdated + b.jobsUpdated, a.runsCreated + b.runsCreated,
   a.skipped + b.skipped, a.errors + b.errors⟩

/-- `schedule_expr: job.schedule.expr || String(job.schedule.everyMs || 0)`
(line 164). -/
def scheduleExprOf (s : Schedule) : String :=
  jsStrOrDefault s.expr (toString (s.everyMs.getD 0))

/-- The `cron_jobs` row upserted at lines 159-175, given the invocation
clock `now` (`updated_at: new Date().toISOString()`), the rendered
`runTime` and the mapped `status`. -/
def cronJobRowOf (job : GatewayCronJob) (now runTime : Nat)
    (status : RunStatus) : CronJobRow :=
  { id := job.id
    name := job.name
    enabled := job.enabled
    schedule_kind := job.schedule.kind
    schedule_expr := scheduleExprOf job.schedule
    timezone := jsStrOrDefault job.schedule.tz "America/Sao_Paulo"
    session_target := job.sessionTarget
    payload := job.payload
    delivery := job.delivery
    last_run_at := if jsTruthyNat job.state.lastRunAtMs then some runTime else none
    last_status := status
    last_duration_ms := jsNumOrNull job.state.lastDurationMs
    last_error := jsStrOrNull job.state.lastError
    consecutive_errors := job.state.consecutiveErrors.getD 0
    updated_at := now }

/-- The `cron_runs` row inserted at lines 200-210. -/
def cronRunRowOf (job : GatewayCronJob) (runTime : Nat)
    (status : RunStatus) : CronRunRow :=
  { job_id := job.id
    started_at := runTime
    completed_at :=
      if jsTruthyNat job.state.lastRunAtMs then
        some (msToIso (job.state.lastRunAtMs.getD 0 + job.state.lastDurationMs.getD 0))
      else none
    status := status
    duration_ms := jsNumOrNull job.state.lastDurationMs
    error_message := jsStrOrNull job.state.lastError
    result_summary := none }

/-- `supabase.from('cron_jobs').upsert(row, { onConflict: 'id' })`: replace
every row whose `id` matches, or append a new row when none matches. -/
def upsertCronJob (s : Store) (row : CronJobRow) : Store :=
  if s.cron_jobs.any (fun r => r.id == row.id) then
    { s with cron_jobs := s.cron_jobs.map (fun r => if r.id == row.id then row else r) }
  else
    { s with cron_jobs := s.cron_jobs ++ [row] }

/-- The point query of lines 187-192:
`select('id').eq('job_id', jobId).eq('started_at', runTime).single()`.
PostgREST `.single()` yields data only when exactly one row matches;
zero or several matches are reported as an error with null data. -/
def selectRunSingle (s : Store) (jobId : String) (startedAt : Nat) :
    Option CronRunRow :=
  match s.cron_runs.filter (fun r => r.job_id == jobId && r.started_at == startedAt) with
  | [r] => some r
  | _ => none

/-- `supabase.from('cron_runs').insert(row)`: append the new run row. -/
def insertRun (s : Store) (row : CronRunRow) : Store :=
  { s with cron_runs := s.cron_runs ++ [row] }

/-- One iteration of the `for (const job of gatewayData.jobs)` loop of
`syncCronRuns` (lines 128-227): skip jobs with a falsy `lastRunAtMs`
(counting them in `skipped`), stop before any store call under `--dry-run`,
then upsert the job row (counting `jobsUpdated` on success, `errors` on
failure), check for an existing run for `(job.id, runTime)` — the query's
error is discarded, only its data is consulted — and, when none was
reported, insert the run row (counting `runsCreated` on success, `errors`
on failure). -/
def syncJob (faults : String → Faults) (now : Nat) (dryRun : Bool)
    (st : SyncState) (job : GatewayCronJob) : SyncState :=
  if !(jsTruthyNat job.state.lastRunAtMs) then
    { st with results := { st.results with skipped := st.results.skipped + 1 } }
  else
    let runTime := msToIso (job.state.lastRunAtMs.getD 0)
    let status := mapStatus job.state.lastStatus
    if dryRun then st
    else
      let f := faults job.id
      if f.upsertErr then
        { st with results := { st.results with errors := st.results.errors + 1 } }
      else
        let store1 := upsertCronJob st.store (cronJobRowOf job now runTime status)
        let results1 := { st.results with jobsUpdated := st.results.jobsUpdated + 1 }
        let existingRun := if f.selectErr then none else selectRunSingle store1 job.id runTime
        if existingRun.isSome then
          { store := store1, results := results1 }
        else if f.insertErr then
          { store := store1, results := { results1 with errors := results1.errors + 1 } }
        else
          { store := insertRun store1 (cronRunRowOf job runTime status)
            results := { results1 with runsCreated := results1.runsCreated + 1 } }

/-- `syncCronRuns` (lines 99-238): fold the per-job step over the batch in
input order, starting from the given state. -/
def syncCronRuns (faults : String → Faults) (now : Nat) (dryRun : Bool)
    (jobs : List GatewayCronJob) (st : SyncState) : SyncState :=
  jobs.foldl (syncJob faults now dryRun) st

/-- The counters as initialised at lines 121-126. -/
def initResults : SyncResults := ⟨0, 0, 0, 0⟩

/-- A fresh invocation state over a given store. -/
def initState (s : Store) : SyncState := ⟨s, initResults⟩

/-- The empty store. -/
def emptyStore : Store := ⟨[], []⟩

/-- No store call fails. -/
def noFaults : String → Faults := fun _ => ⟨false, false, false⟩

/-- The end-to-end scenario job of the spec: id `J1`, last run at epoch
millisecond 1700000000000 with status `ok` and duration 500. -/
def j1 : GatewayCronJob :=
  { id := "J1"
    name := "J1"
    enabled := true
    schedule := ⟨"every", none, some 60000, none⟩
    sessionTarget := "main"
    payload := ⟨"systemEvent", none, some "tick"⟩
    delivery := none
    state := ⟨some 1700000000000, some "ok", some 500, none, some 0⟩ }

/-- A job whose Gateway state reports status `ok` together with a
consecutive-error count of 5. -/
def j2 : GatewayCronJob :=
  { id := "J2"
    name := "J2"
    enabled := true
    schedule := ⟨"every", none, some 60000, none⟩
    sessionTarget := "main"
    payload := ⟨"systemEvent", none, some "tick"⟩
    delivery := none
    state := ⟨some 1700000000000, some "ok", some 500, none, some 5⟩ }

/-- First job of the three-job partial-failure batch. -/
def jA : GatewayCronJob :=
  { j1 with id := "JA", name := "JA", state := ⟨some 1000, some "ok", some 10, none, some 0⟩ }

/-- Middle job of the three-job partial-failure batch (its upsert fails). -/
def jB : GatewayCronJob :=
  { j1 with id := "JB", name := "JB", state := ⟨some 2000, some "ok", some 20, none, some 0⟩ }

/-- Last job of the three-job partial-failure batch. -/
def jC : GatewayCronJob :=
  { j1 with id := "JC", name := "JC", state := ⟨some 3000, some "ok", some 30, none, some 0⟩ }

/-- Fault plan failing only jB's upsert. -/
def faultsUpsertJB : String → Faults :=
  fun id => if id == "JB" then ⟨true, false, false⟩ else ⟨false, false, false⟩

/-- Fault plan failing every run-existence query and nothing else. -/
def faultsSelectOnly : String → Faults := fun _ => ⟨false, true, false⟩

/-- A job whose Gateway state records a last run at epoch millisecond 0. -/
def jEpoch : GatewayCronJob :=
  { j1 with id := "J0", name := "J0", state := ⟨some 0, some "ok", some 1, none, none⟩ }

/-- The store produced by a first faultless sync of the one-job batch `[j1]`
against the empty store. -/
def storeAfterFirstSync : Store :=
  (syncCronRuns noFaults 1 false [j1] (initState emptyStore)).store

/-- A store already holding the run record for `(j1, 1700000000000)`. -/
def storeWithRunJ1 : Store :=
  ⟨[], [cronRunRowOf j1 1700000000000 RunStatus.ok]⟩

/-! ## Helper lemmas -/

/-- The job upsert never touches the `cron_runs` table. -/
theorem upsertCronJob_cron_runs (s : Store) (row : CronJobRow) :
    (upsertCronJob s row).cron_runs = s.cron_runs := by
  unfold upsertCronJob
  split <;> rfl

/-- The run insert never touches the `cron_jobs` table. -/
theorem insertRun_cron_jobs (s : Store) (row : CronRunRow) :
    (insertRun s row).cron_jobs = s.cron_jobs := rfl

/-- The run-existence point query reads only `cron_runs`, which the job
upsert leaves unchanged. -/
theorem selectRunSingle_upsert (s : Store) (row : CronJobRow)
    (jobId : String) (t : Nat) :
    selectRunSingle (upsertCronJob s row) jobId t = selectRunSingle s jobId t := by
  unfold selectRunSingle
  rw [upsertCronJob_cron_runs]

/-- Each loop iteration only ever appends to `cron_runs`. -/
theorem syncJob_runs_append (faults : String → Faults) (now : Nat)
    (dryRun : Bool) (st : SyncState) (job : GatewayCronJob) :
    ∃ new, (syncJob faults now dryRun st job).store.cron_runs
      = st.store.cron_runs ++ new := by
  simp only [syncJob]
  repeat' split
  all_goals first
    | (refine ⟨[], ?_⟩; simp [upsertCronJob_cron_runs]; done)
    | (refine ⟨[cronRunRowOf job (msToIso (job.state.lastRunAtMs.getD 0))
          (mapStatus job.state.lastStatus)], ?_⟩;
       simp [insertRun, upsertCronJob_cron_runs])

/-- Under `--dry-run` the loop leaves the store untouched and only counts,
in `skipped`, the jobs whose `lastRunAtMs` is falsy. -/
theorem syncCronRuns_dryRun_acc (faults : String → Faults) (now : Nat)
    (jobs : List GatewayCronJob) (st : SyncState) :
    syncCronRuns faults now true jobs st
      = { st with results := { st.results with
            skipped := st.results.skipped
              + jobs.countP (fun j => !(jsTruthyNat j.state.lastRunAtMs)) } } := by
  induction jobs generalizing st with
  | nil => simp [syncCronRuns]
  | cons j js ih =>
    have hstep : syncCronRuns faults now true (j :: js) st
        = syncCronRuns faults now true js (syncJob faults now true st j) := rfl
    rw [hstep, ih]
    by_cases hb : jsTruthyNat j.state.lastRunAtMs = true
    · simp [syncJob, hb, List.countP_cons]
    · simp only [Bool.not_eq_true] at hb
      simp [syncJob, hb, List.countP_cons]
      omega

/-- After the job upsert a row with the upserted key is present, and every
row carrying that key is the upserted row itself. -/
theorem upsertCronJob_unique_row (s : Store) (row : CronJobRow) :
    ((upsertCronJob s row).cron_jobs.any (fun r => r.id == row.id)) = true ∧
    ∀ r ∈ (upsertCronJob s row).cron_jobs, r.id = row.id → r = row := by
  unfold upsertCronJob
  by_cases h : s.cron_jobs.any (fun r => r.id == row.id) = true
  · simp only [h, if_true]
    constructor
    · obtain ⟨x, hx, hpx⟩ := List.any_eq_true.mp h
      refine List.any_eq_true.mpr ⟨row, List.mem_map.mpr ⟨x, hx, by simp [hpx]⟩, by simp⟩
    · intro r hr hid
      obtain ⟨x, hx, hxr⟩ := List.mem_map.mp hr
      by_cases hm : (x.id == row.id) = true
      · rw [if_pos hm] at hxr
        exact hxr.symm
      · rw [if_neg hm] at hxr
        exact absurd (hxr ▸ hid) (by simpa using hm)
  · simp only [h, if_false, Bool.false_eq_true]
    constructor
    · simp [List.any_append]
    · intro r hr hid
      rcases List.mem_append.mp hr with hrl | hrr
      · have hpr : (r.id == row.id) = true := by simp [hid]
        exact absurd (List.any_eq_true.mpr ⟨r, hrl, hpr⟩) h
      · simpa using hrr

/-- When the upsert succeeds and the job has a truthy last-run time, the
`cron_jobs` table after the iteration is exactly the upserted table: the
later run insert never touches it. -/
theorem syncJob_cron_jobs (faults : String → Faults) (now : Nat)
    (st : SyncState) (job : GatewayCronJob)
    (hf : (faults job.id).upsertErr = false)
    (ht : jsTruthyNat job.state.lastRunAtMs = true) :
    (syncJob faults now false st job).store.cron_jobs
      = (upsertCronJob st.store
          (cronJobRowOf job now (msToIso (job.state.lastRunAtMs.getD 0))
            (mapStatus job.state.lastStatus))).cron_jobs := by
  simp only [syncJob, ht, hf, Bool.not_true, Bool.false_eq_true, if_false]
  repeat' split
  all_goals rfl

/-- When no stored row carries the upserted key, the upsert appends. -/
theorem upsertCronJob_no_match (s : Store) (row : CronJobRow)
    (h : ∀ x ∈ s.cron_jobs, (x.id == row.id) = false) :
    (upsertCronJob s row).cron_jobs = s.cron_jobs ++ [row] := by
  have hany : s.cron_jobs.any (fun r => r.id == row.id) = false := by
    cases hany : s.cron_jobs.any (fun r => r.id == row.id)
    · rfl
    · obtain ⟨x, hx, hpx⟩ := List.any_eq_true.mp hany
      rw [h x hx] at hpx
      exact absurd hpx (by simp)
  simp only [upsertCronJob, hany, Bool.false_eq_true, if_false]

/-- When some stored row carries the upserted key, the upsert replaces
every such row. -/
theorem upsertCronJob_match (s : Store) (row : CronJobRow)
    (h : s.cron_jobs.any (fun r => r.id == row.id) = true) :
    (upsertCronJob s row).cron_jobs
      = s.cron_jobs.map (fun r => if r.id == row.id then row else r) := by
  simp only [upsertCronJob, h, if_true]

/-! ## Claim theorems -/

/-- Claim C6: `mapStatus` is a total function mapping `"ok"`, `"error"`,
`"running"` and `"timeout"` to their respective statuses and every other
optional-string input — including an absent one and `"garbage"` — to
`pending`. -/
theorem c6_mapStatus_total (s : Option String)
    (h1 : s ≠ some "ok") (h2 : s ≠ some "error")
    (h3 : s ≠ some "running") (h4 : s ≠ some "timeout") :
    mapStatus (some "ok") = RunStatus.ok ∧
    mapStatus (some "error") = RunStatus.error ∧
    mapStatus (some "running") = RunStatus.running ∧
    mapStatus (some "timeout") = RunStatus.timeout ∧
    mapStatus none = RunStatus.pending ∧
    mapStatus (some "garbage") = RunStatus.pending ∧
    mapStatus s = RunStatus.pending := by
  refine ⟨rfl, rfl, rfl, rfl, rfl, rfl, ?_⟩
  rw [mapStatus.eq_def]
  split <;> simp_all

/-- Witness for C6 at the concrete input `some "garbage"`. -/
theorem c6_mapStatus_total_witness :
    mapStatus (some "ok") = RunStatus.ok ∧
    mapStatus (some "error") = RunStatus.error ∧
    mapStatus (some "running") = RunStatus.running ∧
    mapStatus (some "timeout") = RunStatus.timeout ∧
    mapStatus none = RunStatus.pending ∧
    mapStatus (some "garbage") = RunStatus.pending ∧
    mapStatus (some "garbage") = RunStatus.pending :=
  c6_mapStatus_total (some "garbage") (by decide) (by decide) (by decide) (by decide)

/-- Claim C10: a job whose state records `lastRunAtMs = 0` is handled
exactly like a job with no recorded run: the skipped counter is
incremented and nothing else happens, because `!state.lastRunAtMs` is a
falsiness test. -/
theorem c10_epoch_zero_skipped (faults : String → Faults) (now : Nat)
    (dryRun : Bool) (st : SyncState) (job : GatewayCronJob)
    (h : job.state.lastRunAtMs = some 0) :
    syncJob faults now dryRun st job
      = { st with results := { st.results with skipped := st.results.skipped + 1 } } ∧
    syncJob faults now dryRun st job
      = syncJob faults now dryRun st
          { job with state := { job.state with lastRunAtMs := none } } := by
  constructor <;> simp [syncJob, jsTruthyNat, h]

/-- Witness for C10 at the concrete job `jEpoch`. -/
theorem c10_epoch_zero_skipped_witness :
    syncJob noFaults 1 false (initState emptyStore) jEpoch
      = { initState emptyStore with results :=
          { (initState emptyStore).results with
            skipped := (initState emptyStore).results.skipped + 1 } } ∧
    syncJob noFaults 1 false (initState emptyStore) jEpoch
      = syncJob noFaults 1 false (initState emptyStore)
          { jEpoch with state := { jEpoch.state with lastRunAtMs := none } } :=
  c10_epoch_zero_skipped noFaults 1 false (initState emptyStore) jEpoch rfl

/-- Claim C1 counterexample: after the one-job batch `[j1]` is synced once,
re-invoking the reconciler with the identical batch creates no new Run row
but yields counters `{jobsUpdated := 1, runsCreated := 0, skipped := 0,
errors := 0}` — the skipped counter stays 0, not 1 as claimed. -/
theorem c1_counterexample :
    (syncCronRuns noFaults 2 false [j1] (initState storeAfterFirstSync)).results
      = ⟨1, 0, 0, 0⟩ ∧
    (syncCronRuns noFaults 2 false [j1] (initState storeAfterFirstSync)).results
      ≠ ⟨1, 0, 1, 0⟩ ∧
    (syncCronRuns noFaults 2 false [j1] (initState storeAfterFirstSync)).store.cron_runs.length
      = 1 := by
  decide

/-- Claim C2 counterexample: syncing the job `j2`, whose Gateway state
reports status `ok` together with `consecutiveErrors = 5`, records a Run
with status `ok` yet stores a consecutive-error count of 5 — not the 0 the
claim's reset rule requires. -/
theorem c2_counterexample :
    (syncCronRuns noFaults 1 false [j2] (initState emptyStore)).results.runsCreated = 1 ∧
    (syncCronRuns noFaults 1 false [j2] (initState emptyStore)).store.cron_jobs.map
        (fun r => r.last_status) = [RunStatus.ok] ∧
    (syncCronRuns noFaults 1 false [j2] (initState emptyStore)).store.cron_jobs.map
        (fun r => r.consecutive_errors) = [5] := by
  decide

/-- Claim C5 counterexample: with a Run for `(J1, 1700000000000)` already
stored and the existence check failing, the reconciler inserts the Run
anyway: afterwards two Run rows exist for that `(job, start-time)` pair and
`runsCreated` was incremented — creation was not skipped. -/
theorem c5_counterexample :
    (syncCronRuns faultsSelectOnly 1 false [j1] (initState storeWithRunJ1)).store.cron_runs.countP
        (fun r => r.job_id == "J1" && r.started_at == 1700000000000) = 2 ∧
    (syncCronRuns faultsSelectOnly 1 false [j1] (initState storeWithRunJ1)).results.runsCreated
      = 1 := by
  decide

/-- Claim C7 counterexample: the single job of the batch `[j1]` is counted
in two of the four outcome counters — both `jobsUpdated` and `runsCreated`
end at 1 although only one job was processed. -/
theorem c7_counterexample :
    (syncCronRuns noFaults 1 false [j1] (initState emptyStore)).results = ⟨1, 1, 0, 0⟩ ∧
    [j1].length = 1 := by
  decide

/-- Claim C8: Runs are immutable once created — across any invocation, on
any batch, store and fault plan, the `cron_runs` table after the run is the
table before with zero or more new rows appended; no existing Run row is
updated, mutated or deleted. -/
theorem c8_runs_append_only (faults : String → Faults) (now : Nat)
    (dryRun : Bool) (jobs : List GatewayCronJob) (st : SyncState) :
    ∃ new, (syncCronRuns faults now dryRun jobs st).store.cron_runs
      = st.store.cron_runs ++ new := by
  induction jobs generalizing st with
  | nil => exact ⟨[], by simp [syncCronRuns]⟩
  | cons j js ih =>
    obtain ⟨n1, h1⟩ := syncJob_runs_append faults now dryRun st j
    obtain ⟨n2, h2⟩ := ih (syncJob faults now dryRun st j)
    refine ⟨n1 ++ n2, ?_⟩
    have hstep : syncCronRuns faults now dryRun (j :: js) st
        = syncCronRuns faults now dryRun js (syncJob faults now dryRun st j) := rfl
    rw [hstep, h2, h1, List.append_assoc]

/-- Claim C9: under `--dry-run` the reconciler writes nothing — the store
is returned unchanged — and the counters end with `jobsUpdated`,
`runsCreated` and `errors` all 0, `skipped` counting exactly the jobs whose
`lastRunAtMs` is falsy (no recorded run). -/
theorem c9_dry_run_no_writes (faults : String → Faults) (now : Nat)
    (jobs : List GatewayCronJob) (s : Store) :
    syncCronRuns faults now true jobs (initState s)
      = ⟨s, ⟨0, 0, jobs.countP (fun j => !(jsTruthyNat j.state.lastRunAtMs)), 0⟩⟩ := by
  rw [syncCronRuns_dryRun_acc]
  simp [initState, initResults]

/-- Claim C1 (amended): when a faultless iteration finds the Run for
`(job, start-time)` already stored, it creates no new Run row and
increments `jobsUpdated` only — `runsCreated`, `skipped` and `errors` are
all left unchanged. -/
theorem c1_amended_existing_run (faults : String → Faults) (now : Nat)
    (job : GatewayCronJob) (st : SyncState)
    (hf : faults job.id = ⟨false, false, false⟩)
    (ht : jsTruthyNat job.state.lastRunAtMs = true)
    (hex : (selectRunSingle st.store job.id
        (msToIso (job.state.lastRunAtMs.getD 0))).isSome = true) :
    (syncJob faults now false st job).store.cron_runs = st.store.cron_runs ∧
    (syncJob faults now false st job).results
      = { st.results with jobsUpdated := st.results.jobsUpdated + 1 } := by
  simp only [syncJob, ht, hf, Bool.not_true, Bool.false_eq_true, if_false,
    selectRunSingle_upsert, hex, if_true]
  exact ⟨upsertCronJob_cron_runs st.store _, trivial⟩

/-- Witness for C1 (amended): re-processing `j1` against the store produced
by the first sync of `[j1]`. -/
theorem c1_amended_existing_run_witness :
    (syncJob noFaults 2 false (initState storeAfterFirstSync) j1).store.cron_runs
      = (initState storeAfterFirstSync).store.cron_runs ∧
    (syncJob noFaults 2 false (initState storeAfterFirstSync) j1).results
      = { (initState storeAfterFirstSync).results with
          jobsUpdated := (initState storeAfterFirstSync).results.jobsUpdated + 1 } :=
  c1_amended_existing_run noFaults 2 j1 (initState storeAfterFirstSync)
    rfl (by decide) (by decide)

/-- Claim C5 (amended): when the run-existence check fails, its error is
discarded and the null result is treated as "no existing run": the
reconciler proceeds to insert the Run row and increments `runsCreated`,
risking a duplicate rather than skipping creation. -/
theorem c5_amended_check_failure_inserts (faults : String → Faults) (now : Nat)
    (job : GatewayCronJob) (st : SyncState)
    (ht : jsTruthyNat job.state.lastRunAtMs = true)
    (hf : faults job.id = ⟨false, true, false⟩) :
    (syncJob faults now false st job).store.cron_runs
      = st.store.cron_runs
          ++ [cronRunRowOf job (msToIso (job.state.lastRunAtMs.getD 0))
                (mapStatus job.state.lastStatus)] ∧
    (syncJob faults now false st job).results.runsCreated
      = st.results.runsCreated + 1 := by
  simp only [syncJob, ht, hf, Bool.not_true, Bool.false_eq_true, if_false,
    if_true, Option.isSome_none]
  exact ⟨by simp [insertRun, upsertCronJob_cron_runs], trivial⟩

/-- Witness for C5 (amended): `j1` against a store that already holds the
run for `(J1, 1700000000000)`, with the existence check failing — the row
is inserted again. -/
theorem c5_amended_check_failure_inserts_witness :
    (syncJob faultsSelectOnly 1 false (initState storeWithRunJ1) j1).store.cron_runs
      = (initState storeWithRunJ1).store.cron_runs
          ++ [cronRunRowOf j1 (msToIso (j1.state.lastRunAtMs.getD 0))
                (mapStatus j1.state.lastStatus)] ∧
    (syncJob faultsSelectOnly 1 false (initState storeWithRunJ1) j1).results.runsCreated
      = (initState storeWithRunJ1).results.runsCreated + 1 :=
  c5_amended_check_failure_inserts faultsSelectOnly 1 j1 (initState storeWithRunJ1)
    (by decide) rfl

/-- Claim C2 (amended): when the reconciler records state for a job, the
stored consecutive-error count is the count reported by the Gateway's
`state.consecutiveErrors` (defaulting to 0 when absent), regardless of the
new Run's status; it is not derived from the prior stored count. -/
theorem c2_amended_count_copied (faults : String → Faults) (now : Nat)
    (job : GatewayCronJob) (st : SyncState)
    (hf : (faults job.id).upsertErr = false)
    (ht : jsTruthyNat job.state.lastRunAtMs = true) :
    ((syncJob faults now false st job).store.cron_jobs.any
        (fun r => r.id == job.id)) = true ∧
    ∀ r ∈ (syncJob faults now false st job).store.cron_jobs,
      r.id = job.id → r.consecutive_errors = job.state.consecutiveErrors.getD 0 := by
  have hj := syncJob_cron_jobs faults now st job hf ht
  obtain ⟨h1, h2⟩ := upsertCronJob_unique_row st.store
    (cronJobRowOf job now (msToIso (job.state.lastRunAtMs.getD 0))
      (mapStatus job.state.lastStatus))
  constructor
  · rw [hj]
    exact h1
  · intro r hr hid
    rw [hj] at hr
    rw [h2 r hr hid]
    rfl

/-- Witness for C2 (amended) at the concrete job `j2` (status `ok`,
Gateway-reported consecutive-error count 5). -/
theorem c2_amended_count_copied_witness :
    ((syncJob noFaults 1 false (initState emptyStore) j2).store.cron_jobs.any
        (fun r => r.id == j2.id)) = true ∧
    ∀ r ∈ (syncJob noFaults 1 false (initState emptyStore) j2).store.cron_jobs,
      r.id = j2.id → r.consecutive_errors = j2.state.consecutiveErrors.getD 0 :=
  c2_amended_count_copied noFaults 1 j2 (initState emptyStore) rfl (by decide)

/-- Claim C7 (amended): in a live (non-dry-run) invocation, every job in the
batch follows exactly one of five outcome profiles, contributing the
corresponding deltas to the counters — skipped only; error only (upsert
failed); jobsUpdated only (run already recorded); jobsUpdated and errors
(run insert failed); or jobsUpdated and runsCreated (run recorded) — and in
each profile at least one counter is incremented, so no job is dropped.
Counter order: (jobsUpdated, runsCreated, skipped, errors). -/
theorem c7_amended_outcome_profiles (faults : String → Faults) (now : Nat)
    (st : SyncState) (job : GatewayCronJob) :
    ∃ d ∈ ([⟨0, 0, 1, 0⟩, ⟨0, 0, 0, 1⟩, ⟨1, 0, 0, 0⟩, ⟨1, 0, 0, 1⟩,
        ⟨1, 1, 0, 0⟩] : List SyncResults),
      (syncJob faults now false st job).results = addResults st.results d ∧
      1 ≤ d.jobsUpdated + d.runsCreated + d.skipped + d.errors := by
  simp only [syncJob, Bool.false_eq_true, if_false]
  repeat' split
  all_goals first
    | (refine ⟨⟨0, 0, 1, 0⟩, by decide, ?_, by decide⟩; simp [addResults]; done)
    | (refine ⟨⟨0, 0, 0, 1⟩, by decide, ?_, by decide⟩; simp [addResults]; done)
    | (refine ⟨⟨1, 0, 0, 0⟩, by decide, ?_, by decide⟩; simp [addResults]; done)
    | (refine ⟨⟨1, 0, 0, 1⟩, by decide, ?_, by decide⟩; simp [addResults]; done)
    | (refine ⟨⟨1, 1, 0, 0⟩, by decide, ?_, by decide⟩; simp [addResults])

/-- Claim C3: upserting the row built from the same job candidate twice,
with clocks `t1` then `t2`, against a store with no row for that job id,
leaves exactly one row keyed by the job id; the second call is the first
call's result with only that row's `updated_at` changed — every other field
and every other row is identical, and `cron_runs` is untouched. -/
theorem c3_upsert_idempotent (job : GatewayCronJob) (rt : Nat)
    (status : RunStatus) (t1 t2 : Nat) (s : Store)
    (h0 : ∀ x ∈ s.cron_jobs, (x.id == job.id) = false) :
    cronJobRowOf job t2 rt status
      = { cronJobRowOf job t1 rt status with updated_at := t2 } ∧
    (upsertCronJob (upsertCronJob s (cronJobRowOf job t1 rt status))
        (cronJobRowOf job t2 rt status)).cron_jobs.countP
        (fun r => r.id == job.id) = 1 ∧
    (upsertCronJob (upsertCronJob s (cronJobRowOf job t1 rt status))
        (cronJobRowOf job t2 rt status)).cron_jobs
      = (upsertCronJob s (cronJobRowOf job t1 rt status)).cron_jobs.map
          (fun r => if r.id == job.id then { r with updated_at := t2 } else r) ∧
    (upsertCronJob (upsertCronJob s (cronJobRowOf job t1 rt status))
        (cronJobRowOf job t2 rt status)).cron_runs
      = (upsertCronJob s (cronJobRowOf job t1 rt status)).cron_runs := by
  have hrow : cronJobRowOf job t2 rt status
      = { cronJobRowOf job t1 rt status with updated_at := t2 } := rfl
  have hu1 : (upsertCronJob s (cronJobRowOf job t1 rt status)).cron_jobs
      = s.cron_jobs ++ [cronJobRowOf job t1 rt status] :=
    upsertCronJob_no_match s (cronJobRowOf job t1 rt status) h0
  have hself : ((cronJobRowOf job t1 rt status).id == job.id) = true := by
    simp [cronJobRowOf]
  have hany2 : (upsertCronJob s (cronJobRowOf job t1 rt status)).cron_jobs.any
      (fun r => r.id == (cronJobRowOf job t2 rt status).id) = true := by
    rw [hu1]
    refine List.any_eq_true.mpr ⟨cronJobRowOf job t1 rt status, ?_, hself⟩
    exact List.mem_append.mpr (Or.inr (List.mem_singleton.mpr rfl))
  have hu2 : (upsertCronJob (upsertCronJob s (cronJobRowOf job t1 rt status))
        (cronJobRowOf job t2 rt status)).cron_jobs
      = (upsertCronJob s (cronJobRowOf job t1 rt status)).cron_jobs.map
          (fun r => if r.id == job.id then cronJobRowOf job t2 rt status else r) :=
    upsertCronJob_match (upsertCronJob s (cronJobRowOf job t1 rt status))
      (cronJobRowOf job t2 rt status) hany2
  refine ⟨hrow, ?_, ?_, upsertCronJob_cron_runs _ _⟩
  · rw [hu2, hu1, List.map_append, List.countP_append]
    have hmapid : s.cron_jobs.map
        (fun r => if r.id == job.id then cronJobRowOf job t2 rt status else r)
        = s.cron_jobs := by
      have hcg : s.cron_jobs.map
          (fun r => if r.id == job.id then cronJobRowOf job t2 rt status else r)
          = s.cron_jobs.map id :=
        List.map_congr_left (fun x hx => by
          rw [if_neg (by simp [h0 x hx])]
          rfl)
      rw [hcg, List.map_id]
    have hz : s.cron_jobs.countP (fun r => r.id == job.id) = 0 :=
      List.countP_eq_zero.mpr (by intro a ha; simp [h0 a ha])
    rw [hmapid, hz]
    have hone : List.countP (fun r => r.id == job.id)
        (List.map (fun r => if r.id == job.id then cronJobRowOf job t2 rt status else r)
          [cronJobRowOf job t1 rt status]) = 1 := by
      simp [List.countP_cons, cronJobRowOf]
    rw [hone]
  · rw [hu2]
    refine List.map_congr_left ?_
    intro x hx
    by_cases hm : (x.id == job.id) = true
    · rw [if_pos hm, if_pos hm]
      have hx1 : x = cronJobRowOf job t1 rt status := by
        rw [hu1] at hx
        rcases List.mem_append.mp hx with hl | hr2
        · rw [h0 x hl] at hm
          exact absurd hm (by simp)
        · simpa using hr2
      rw [hx1, hrow]
    · rw [if_neg hm, if_neg hm]

/-- Witness for C3: the job `j1` upserted twice at clocks 1 and 2 against
the empty store. -/
theorem c3_upsert_idempotent_witness :
    cronJobRowOf j1 2 1700000000000 RunStatus.ok
      = { cronJobRowOf j1 1 1700000000000 RunStatus.ok with updated_at := 2 } ∧
    (upsertCronJob (upsertCronJob emptyStore (cronJobRowOf j1 1 1700000000000 RunStatus.ok))
        (cronJobRowOf j1 2 1700000000000 RunStatus.ok)).cron_jobs.countP
        (fun r => r.id == j1.id) = 1 ∧
    (upsertCronJob (upsertCronJob emptyStore (cronJobRowOf j1 1 1700000000000 RunStatus.ok))
        (cronJobRowOf j1 2 1700000000000 RunStatus.ok)).cron_jobs
      = (upsertCronJob emptyStore (cronJobRowOf j1 1 1700000000000 RunStatus.ok)).cron_jobs.map
          (fun r => if r.id == j1.id then { r with updated_at := 2 } else r) ∧
    (upsertCronJob (upsertCronJob emptyStore (cronJobRowOf j1 1 1700000000000 RunStatus.ok))
        (cronJobRowOf j1 2 1700000000000 RunStatus.ok)).cron_runs
      = (upsertCronJob emptyStore (cronJobRowOf j1 1 1700000000000 RunStatus.ok)).cron_runs :=
  c3_upsert_idempotent j1 1700000000000 RunStatus.ok 1 2 emptyStore
    (by intro x hx; exact absurd hx (List.not_mem_nil x))

/-- A failing iteration — upsert rejected, or run insert rejected with no
run stored for the `(job, start-time)` pair — adds exactly one to `errors`
and leaves `cron_runs` unchanged. -/
theorem syncJob_failure_step (faults : String → Faults) (now : Nat)
    (s : SyncState) (job : GatewayCronJob)
    (ht : jsTruthyNat job.state.lastRunAtMs = true)
    (hfail : (faults job.id).upsertErr = true ∨
      ((faults job.id).insertErr = true ∧
       (s.store.cron_runs.all (fun r => !(r.job_id == job.id
          && r.started_at == msToIso (job.state.lastRunAtMs.getD 0)))) = true)) :
    (syncJob faults now false s job).results.errors = s.results.errors + 1 ∧
    (syncJob faults now false s job).store.cron_runs = s.store.cron_runs := by
  cases hup : (faults job.id).upsertErr with
  | true =>
    simp only [syncJob, ht, Bool.not_true, Bool.false_eq_true, if_false, hup,
      if_true]
    refine ⟨?_, ?_⟩ <;> trivial
  | false =>
    rcases hfail with hfu | ⟨hins, hall⟩
    · exact absurd hfu (by simp [hup])
    · have hnone : (if (faults job.id).selectErr then none else
          selectRunSingle (upsertCronJob s.store
            (cronJobRowOf job now (msToIso (job.state.lastRunAtMs.getD 0))
              (mapStatus job.state.lastStatus)))
            job.id (msToIso (job.state.lastRunAtMs.getD 0)))
          = (none : Option CronRunRow) := by
        by_cases hsel : (faults job.id).selectErr = true
        · rw [if_pos hsel]
        · rw [if_neg hsel, selectRunSingle_upsert]
          unfold selectRunSingle
          have hfil : s.store.cron_runs.filter
              (fun r => r.job_id == job.id
                && r.started_at == msToIso (job.state.lastRunAtMs.getD 0)) = [] := by
            rw [List.filter_eq_nil_iff]
            intro a ha
            have hb : (!(a.job_id == job.id
                && a.started_at == msToIso (job.state.lastRunAtMs.getD 0))) = true :=
              List.all_eq_true.mp hall a ha
            have hpa : (a.job_id == job.id
                && a.started_at == msToIso (job.state.lastRunAtMs.getD 0)) = false := by
              cases hv : (a.job_id == job.id
                  && a.started_at == msToIso (job.state.lastRunAtMs.getD 0))
              · rfl
              · rw [hv] at hb
                exact absurd hb (by decide)
            simp [hpa]
          rw [hfil]
      simp only [syncJob, ht, Bool.not_true, Bool.false_eq_true, if_false, hup,
        hnone, Option.isSome_none, hins, if_true]
      refine ⟨?_, ?_⟩ <;> first
        | trivial
        | exact upsertCronJob_cron_runs _ _

/-- Claim C4: a job whose upsert or run insert fails with a store error is
recorded by incrementing `errors` (with no Run row written for it), and the
batch is not aborted: the whole run equals processing the jobs before the
failure, taking the failing job's error step, then processing every
remaining job from that state. -/
theorem c4_partial_failure_isolation (faults : String → Faults) (now : Nat)
    (pre post : List GatewayCronJob) (job : GatewayCronJob) (st : SyncState)
    (ht : jsTruthyNat job.state.lastRunAtMs = true)
    (hfail : (faults job.id).upsertErr = true ∨
      ((faults job.id).insertErr = true ∧
       ((syncCronRuns faults now false pre st).store.cron_runs.all
          (fun r => !(r.job_id == job.id
            && r.started_at == msToIso (job.state.lastRunAtMs.getD 0)))) = true)) :
    (syncJob faults now false (syncCronRuns faults now false pre st) job).results.errors
      = (syncCronRuns faults now false pre st).results.errors + 1 ∧
    (syncJob faults now false (syncCronRuns faults now false pre st) job).store.cron_runs
      = (syncCronRuns faults now false pre st).store.cron_runs ∧
    syncCronRuns faults now false (pre ++ job :: post) st
      = syncCronRuns faults now false post
          (syncJob faults now false (syncCronRuns faults now false pre st) job) := by
  obtain ⟨he, hr⟩ := syncJob_failure_step faults now
    (syncCronRuns faults now false pre st) job ht hfail
  refine ⟨he, hr, ?_⟩
  simp only [syncCronRuns]
  rw [List.foldl_append, List.foldl_cons]

/-- Witness for C4: the three-job batch `[jA, jB, jC]` where only jB's
upsert fails, run against the empty store. -/
theorem c4_partial_failure_isolation_witness :
    (syncJob faultsUpsertJB 1 false
        (syncCronRuns faultsUpsertJB 1 false [jA] (initState emptyStore)) jB).results.errors
      = (syncCronRuns faultsUpsertJB 1 false [jA] (initState emptyStore)).results.errors + 1 ∧
    (syncJob faultsUpsertJB 1 false
        (syncCronRuns faultsUpsertJB 1 false [jA] (initState emptyStore)) jB).store.cron_runs
      = (syncCronRuns faultsUpsertJB 1 false [jA] (initState emptyStore)).store.cron_runs ∧
    syncCronRuns faultsUpsertJB 1 false ([jA] ++ jB :: [jC]) (initState emptyStore)
      = syncCronRuns faultsUpsertJB 1 false [jC]
          (syncJob faultsUpsertJB 1 false
            (syncCronRuns faultsUpsertJB 1 false [jA] (initState emptyStore)) jB) :=
  c4_partial_failure_isolation faultsUpsertJB 1 [jA] [jC] jB (initState emptyStore)
    (by decide) (Or.inl (by decide))

end CronSync
